import Mathlib

/-!
Verification of the pipeline orchestrator of the `contenido-linkedin`
repository (`src/agents/supervisor.py`).

The orchestrator (`SupervisorAgent`) threads a mutable `WorkflowState`
dictionary through a fixed four-stage pipeline
(tone analysis, research, content creation, image generation), records
per-stage success or failure, derives an overall run status
(`finalize_workflow`), validates requests (`run_workflow`), and offers two
read-only projections (`get_workflow_status`, `get_results_summary`).

Embedding conventions:
* Python dictionaries produced by the stage agents are association lists
  `List (String × PyVal)`; the orchestrator only tests key presence and
  reads a few values, which is what the association-list operations model.
* Each stage agent call is an oracle value `StageCall`: the call either
  returns a dictionary (`StageCall.ret`) or raises an exception carrying a
  message (`StageCall.raise`); the orchestrator code is translated line by
  line against this oracle, including the `try`/`except` blocks.
* Python string operations `str.strip`, `str.lower`, the substring test
  `a in b` and `len` are modelled by executable char-list functions
  (`pyStrip`, `pyLower`, `substrIn`), since the behaviour of the
  orchestrator depends on them.
-/

namespace Supervisor

/-- Values stored in the stage-result dictionaries.  The payloads the
agents produce are strings, numbers, lists of strings (insights,
hashtags) and string-valued trait maps (tone characteristics); the
orchestrator and the summarizers inspect nothing deeper. -/
inductive PyVal where
| str : String → PyVal
| num : Int → PyVal
| strList : List String → PyVal
| strDict : List (String × String) → PyVal
deriving DecidableEq

/-- Python `str(v)` as used in the f-strings of the summarizers; the
values interpolated there are strings and numbers. -/
def PyVal.pyStr : PyVal → String
| .str s => s
| .num n => toString n
| .strList _ => ""
| .strDict _ => ""

/-- Python `len(v)` for the list-valued fields read by the summarizers. -/
def PyVal.pyLen : PyVal → Nat
| .str s => s.length
| .num _ => 0
| .strList xs => xs.length
| .strDict d => d.length

/-- Python truthiness of a value (`if insights:`). -/
def PyVal.pyTruthy : PyVal → Bool
| .str s => !s.isEmpty
| .num n => n != 0
| .strList xs => !xs.isEmpty
| .strDict d => !d.isEmpty

/-- Python `dict.items()` for the characteristics trait map. -/
def PyVal.pyItems : PyVal → List (String × String)
| .strDict d => d
| _ => []

/-- A Python dictionary with string keys, as an association list. -/
abbrev Dict := List (String × PyVal)

/-- Python `k in d` for a dictionary. -/
def dictHasKey (d : Dict) (k : String) : Bool :=
  d.any (fun p => p.1 == k)

/-- Python `d.get(k, dflt)` (also used for `d[k]` at call sites where the
key is present, so the default is never read there). -/
def dictGet (d : Dict) (k : String) (dflt : PyVal) : PyVal :=
  ((d.find? (fun p => p.1 == k)).map (fun p => p.2)).getD dflt

/-- The string interpolated for `result["error"]` in the error messages of
the orchestrator and the summarizers. -/
def errStr (d : Dict) : String :=
  (dictGet d "error" (.str "")).pyStr

/-- Python `str.strip()`: remove leading and trailing whitespace. -/
def pyStrip (s : String) : String :=
  String.mk (((s.data.dropWhile Char.isWhitespace).reverse.dropWhile
    Char.isWhitespace).reverse)

/-- Python `str.lower()`: lower-case every character. -/
def pyLower (s : String) : String :=
  String.mk (s.data.map Char.toLower)

/-- Boolean test of `needle` being a leading segment of `hay`. -/
def isPrefixList : List Char → List Char → Bool
| [], _ => true
| _ :: _, [] => false
| a :: as, b :: bs => a == b && isPrefixList as bs

/-- Boolean test of `needle` occurring contiguously inside `hay`. -/
def isSubList : List Char → List Char → Bool
| n, [] => isPrefixList n []
| n, h :: t => isPrefixList n (h :: t) || isSubList n t

/-- Python substring containment `needle in hay`. -/
def substrIn (needle hay : String) : Bool :=
  isSubList needle.data hay.data

/-- The `WorkflowState` TypedDict of `src/agents/supervisor.py`
(lines 13-25): request fields, the four stage-result dictionaries, the
current step, the completed-steps list, the errors list and the overall
status.  `run_workflow` always populates every field, so the defensive
`if "errors" not in state` re-initialisations inside the stage nodes are
no-ops harmlessly absorbed by the record representation. -/
structure WorkflowState where
  tone_sample : String
  topic : String
  language : String
  tone_analysis : Dict
  research_data : Dict
  content_result : Dict
  image_result : Dict
  current_step : String
  completed_steps : List String
  errors : List String
  status : String
deriving DecidableEq

/-- Oracle for one external agent call: the call returns a result
dictionary, or raises an exception whose `str(e)` is the given message. -/
inductive StageCall where
| ret : Dict → StageCall
| raise : String → StageCall
deriving DecidableEq

/-- A stage call is recorded as successful exactly when it returns a
dictionary with no `"error"` key (`if "error" not in result`). -/
def StageCall.succeeds : StageCall → Bool
| .ret d => !(dictHasKey d "error")
| .raise _ => false

/-- The behaviour of the four external agent calls during one run:
`tone_agent.analyze_tone`, `research_agent.research_topic`,
`content_agent.create_content`, `image_agent.generate_image`. -/
structure StageCalls where
  tone : StageCall
  research : StageCall
  content : StageCall
  image : StageCall
deriving DecidableEq

/-- The `analyze_tone` workflow node (supervisor.py lines 45-75): set
`current_step` and `status`, call the tone agent inside `try`/`except`;
on return store the result and append either the stage name to
`completed_steps` or a formatted message to `errors`; on an exception
append a `"Tone analysis failed: ..."` message and leave the
`tone_analysis` field untouched. -/
def analyze_tone (call : StageCall) (state : WorkflowState) : WorkflowState :=
  let state := { state with current_step := "tone_analysis", status := "working" }
  match call with
  | .ret tone_result =>
    let state := { state with tone_analysis := tone_result }
    if !(dictHasKey tone_result "error") then
      { state with completed_steps := state.completed_steps ++ ["tone_analysis"] }
    else
      { state with errors := state.errors ++ ["Tone analysis error: " ++ errStr tone_result] }
  | .raise msg =>
    { state with errors := state.errors ++ ["Tone analysis failed: " ++ msg] }

/-- The `research_topic` workflow node (supervisor.py lines 77-103). -/
def research_topic (call : StageCall) (state : WorkflowState) : WorkflowState :=
  let state := { state with current_step := "research", status := "working" }
  match call with
  | .ret research_result =>
    let state := { state with research_data := research_result }
    if !(dictHasKey research_result "error") then
      { state with completed_steps := state.completed_steps ++ ["research"] }
    else
      { state with errors := state.errors ++ ["Research error: " ++ errStr research_result] }
  | .raise msg =>
    { state with errors := state.errors ++ ["Research failed: " ++ msg] }

/-- The `create_content` workflow node (supervisor.py lines 105-135); the
content agent receives the tone and research dictionaries and the topic,
and its behaviour is part of the `StageCall` oracle. -/
def create_content (call : StageCall) (state : WorkflowState) : WorkflowState :=
  let state := { state with current_step := "content_creation", status := "working" }
  match call with
  | .ret content_result =>
    let state := { state with content_result := content_result }
    if !(dictHasKey content_result "error") then
      { state with completed_steps := state.completed_steps ++ ["content_creation"] }
    else
      { state with errors := state.errors ++ ["Content creation error: " ++ errStr content_result] }
  | .raise msg =>
    { state with errors := state.errors ++ ["Content creation failed: " ++ msg] }

/-- The `generate_image` workflow node (supervisor.py lines 137-170); the
post text extracted from `content_result` is an input of the external
call, whose behaviour is part of the `StageCall` oracle. -/
def generate_image (call : StageCall) (state : WorkflowState) : WorkflowState :=
  let state := { state with current_step := "image_generation", status := "working" }
  match call with
  | .ret image_result =>
    let state := { state with image_result := image_result }
    if !(dictHasKey image_result "error") then
      { state with completed_steps := state.completed_steps ++ ["image_generation"] }
    else
      { state with errors := state.errors ++ ["Image generation error: " ++ errStr image_result] }
  | .raise msg =>
    { state with errors := state.errors ++ ["Image generation failed: " ++ msg] }

/-- The `finalize_workflow` node (supervisor.py lines 172-194): set
`current_step` to the terminal sentinel and derive the final status from
the error count and the completed count. -/
def finalize_workflow (state : WorkflowState) : WorkflowState :=
  let state := { state with current_step := "completed" }
  if state.errors.length = 0 ∧ state.completed_steps.length = 4 then
    { state with status := "completed" }
  else if state.completed_steps.length > 0 then
    { state with status := "partially_completed" }
  else
    { state with status := "failed" }

/-- The initial state built by `run_workflow` (supervisor.py
lines 241-253). -/
def initial_state (tone_sample topic language : String) : WorkflowState :=
  { tone_sample := pyStrip tone_sample
    topic := pyStrip topic
    language := language
    tone_analysis := []
    research_data := []
    content_result := []
    image_result := []
    current_step := "start"
    completed_steps := []
    errors := []
    status := "starting" }

/-- The error state returned by the `except` clause of `run_workflow`
(supervisor.py lines 261-278) when validation raises `ValueError(msg)`. -/
def error_state (tone_sample topic language msg : String) : WorkflowState :=
  { tone_sample := tone_sample
    topic := topic
    language := language
    tone_analysis := []
    research_data := []
    content_result := []
    image_result := []
    current_step := "error"
    completed_steps := []
    errors := ["Workflow execution failed: " ++ msg]
    status := "error" }

/-- `run_workflow` (supervisor.py lines 218-278): validate the request
(`not tone_sample or len(tone_sample.strip()) < 10` collapses to the
trimmed-length test, since an empty string also has trimmed length 0),
then run the five workflow nodes in the fixed graph order
`analyze_tone → research_topic → create_content → generate_image →
finalize`; a validation failure is caught by the surrounding
`try`/`except` and turned into the error state, so the function is total
and never propagates an exception to the caller. -/
def run_workflow (calls : StageCalls) (tone_sample topic language : String) :
    WorkflowState :=
  if (pyStrip tone_sample).length < 10 then
    error_state tone_sample topic language
      "Tone sample must be at least 10 characters long"
  else if (pyStrip topic).length < 3 then
    error_state tone_sample topic language
      "Topic must be at least 3 characters long"
  else
    finalize_workflow (generate_image calls.image (create_content calls.content
      (research_topic calls.research (analyze_tone calls.tone
        (initial_state tone_sample topic language)))))

/-- Every state the workflow passes through during one `run_workflow`
call: the initial state and the state after each of the five graph nodes,
or the single error state of an invalid request. -/
def runTrace (calls : StageCalls) (tone_sample topic language : String) :
    List WorkflowState :=
  if (pyStrip tone_sample).length < 10 then
    [error_state tone_sample topic language
      "Tone sample must be at least 10 characters long"]
  else if (pyStrip topic).length < 3 then
    [error_state tone_sample topic language
      "Topic must be at least 3 characters long"]
  else
    let s0 := initial_state tone_sample topic language
    let s1 := analyze_tone calls.tone s0
    let s2 := research_topic calls.research s1
    let s3 := create_content calls.content s2
    let s4 := generate_image calls.image s3
    [s0, s1, s2, s3, s4, finalize_workflow s4]

/-- The dictionary a stage node leaves in its result field: the returned
dictionary on a normal return, the previous value when the call raised. -/
def retField : StageCall → Dict → Dict
| .ret d, _ => d
| .raise _, old => old

/-- The error message the `analyze_tone` node appends when the tone call
does not succeed. -/
def toneErrMsg : StageCall → String
| .ret d => "Tone analysis error: " ++ errStr d
| .raise m => "Tone analysis failed: " ++ m

/-- The error message the `research_topic` node appends on failure. -/
def researchErrMsg : StageCall → String
| .ret d => "Research error: " ++ errStr d
| .raise m => "Research failed: " ++ m

/-- The error message the `create_content` node appends on failure. -/
def contentErrMsg : StageCall → String
| .ret d => "Content creation error: " ++ errStr d
| .raise m => "Content creation failed: " ++ m

/-- The error message the `generate_image` node appends on failure. -/
def imageErrMsg : StageCall → String
| .ret d => "Image generation error: " ++ errStr d
| .raise m => "Image generation failed: " ++ m

/-- The contribution of the tone stage to `errors`: nothing on success,
its one message on failure. -/
def toneErrEntry (c : StageCall) : List String :=
  if c.succeeds then [] else [toneErrMsg c]

/-- The contribution of the research stage to `errors`. -/
def researchErrEntry (c : StageCall) : List String :=
  if c.succeeds then [] else [researchErrMsg c]

/-- The contribution of the content stage to `errors`. -/
def contentErrEntry (c : StageCall) : List String :=
  if c.succeeds then [] else [contentErrMsg c]

/-- The contribution of the image stage to `errors`. -/
def imageErrEntry (c : StageCall) : List String :=
  if c.succeeds then [] else [imageErrMsg c]

/-- The four stage names in the fixed execution order of the graph. -/
def stageNames : List String :=
  ["tone_analysis", "research", "content_creation", "image_generation"]

/-- The completed-steps list a valid run ends with: the names of the
succeeding stages, in the fixed execution order. -/
def stageList (calls : StageCalls) : List String :=
  (if calls.tone.succeeds then ["tone_analysis"] else []) ++
  (if calls.research.succeeds then ["research"] else []) ++
  (if calls.content.succeeds then ["content_creation"] else []) ++
  (if calls.image.succeeds then ["image_generation"] else [])

/-- The errors list a valid run ends with: one entry per failing stage,
in the fixed execution order. -/
def errorList (calls : StageCalls) : List String :=
  toneErrEntry calls.tone ++ researchErrEntry calls.research ++
  contentErrEntry calls.content ++ imageErrEntry calls.image

/-- The final status `finalize_workflow` derives for a valid run. -/
def finalStatusOf (calls : StageCalls) : String :=
  if (errorList calls).length = 0 ∧ (stageList calls).length = 4 then
    "completed"
  else if (stageList calls).length > 0 then
    "partially_completed"
  else
    "failed"

/-- The `steps` dictionary `get_workflow_status` starts from
(supervisor.py lines 282-287): the four stage keys, all `"waiting"`,
in insertion order. -/
def initSteps : List (String × String) :=
  [("tone_analysis", "waiting"), ("research", "waiting"),
   ("content_creation", "waiting"), ("image_generation", "waiting")]

/-- Assignment `steps[k] = v` on the steps dictionary: the key set and the
insertion order never change, only the value stored under `k`. -/
def updateStep (st : List (String × String)) (k v : String) :
    List (String × String) :=
  st.map (fun p => if p.1 == k then (k, v) else p)

/-- Python `k in steps`. -/
def hasStep (st : List (String × String)) (k : String) : Bool :=
  st.any (fun p => p.1 == k)

/-- Python `steps[k]` as an optional read. -/
def lookupStep (st : List (String × String)) (k : String) : Option String :=
  (st.find? (fun p => p.1 == k)).map (fun p => p.2)

/-- One iteration of the completed-steps loop (supervisor.py
lines 290-292): `if step in steps: steps[step] = "completed"`. -/
def markCompleted (st : List (String × String)) (step : String) :
    List (String × String) :=
  if hasStep st step then updateStep st step "completed" else st

/-- The current-step update (supervisor.py lines 295-297):
`if current_step in steps and steps[current_step] != "completed"`. -/
def markWorking (st : List (String × String)) (cur : String) :
    List (String × String) :=
  if hasStep st cur && !(lookupStep st cur == some "completed") then
    updateStep st cur "working"
  else st

/-- One iteration of the errors loop (supervisor.py lines 300-304): scan
the step keys in order, mark the first key occurring as a substring of
the lower-cased error message and stop (`break`). -/
def markError (st : List (String × String)) (err : String) :
    List (String × String) :=
  match st.find? (fun p => substrIn p.1 (pyLower err)) with
  | some p => updateStep st p.1 "error"
  | none => st

/-- `get_workflow_status` (supervisor.py lines 280-306): start from the
all-`"waiting"` dictionary, mark completed steps, mark the current step
as working unless completed, then mark error steps by substring match. -/
def get_workflow_status (s : WorkflowState) : List (String × String) :=
  s.errors.foldl markError
    (markWorking (s.completed_steps.foldl markCompleted initSteps)
      s.current_step)

/-- `ToneAnalysisAgent.get_tone_summary` (tone_agent.py lines 95-107).
The characteristics value is a trait map in every dictionary the agent
produces; `pyItems` reads it (Python would raise on a non-dictionary). -/
def get_tone_summary (analysis : Dict) : String :=
  if dictHasKey analysis "error" then
    "Error: " ++ errStr analysis
  else
    let characteristics := dictGet analysis "characteristics" (.strDict [])
    let summary_parts := characteristics.pyItems.filterMap
      (fun p => if p.2 ≠ "unknown" then some (p.1 ++ ": " ++ p.2) else none)
    if summary_parts.isEmpty then "Tone analysis completed"
    else String.intercalate "; " summary_parts

/-- `ResearchAgent.get_research_summary` (research_agent.py
lines 131-140); the direct index `research_data["topic"]` is modelled
with an empty default (Python would raise on a missing key). -/
def get_research_summary (research_data : Dict) : String :=
  if dictHasKey research_data "error" then
    "Error: " ++ errStr research_data
  else
    let insights := dictGet research_data "insights" (.strList [])
    if insights.pyTruthy then
      "Found " ++ toString insights.pyLen ++ " key insights about " ++
        (dictGet research_data "topic" (.str "")).pyStr
    else
      "Research completed for topic: " ++
        (dictGet research_data "topic" (.str "")).pyStr

/-- `ContentCreationAgent.get_content_summary` (content_agent.py
lines 171-179). -/
def get_content_summary (content_result : Dict) : String :=
  if dictHasKey content_result "error" then
    "Error: " ++ errStr content_result
  else
    "Generated " ++ (dictGet content_result "word_count" (.num 0)).pyStr ++
      " word post with " ++
      toString (dictGet content_result "hashtags" (.strList [])).pyLen ++
      " hashtags"

/-- `ImageGenerationAgent.get_image_summary` (image_agent.py
lines 215-225). -/
def get_image_summary (image_result : Dict) : String :=
  if dictHasKey image_result "error" then
    "Error: " ++ errStr image_result
  else if dictHasKey image_result "carousel_images" then
    "Generated " ++ (dictGet image_result "slide_count" (.num 0)).pyStr ++
      "-slide carousel for LinkedIn"
  else
    "Generated " ++ (dictGet image_result "dimensions" (.str "unknown")).pyStr ++
      " image for LinkedIn post"

/-- The summary dictionary `get_results_summary` builds (supervisor.py
lines 308-335); the `"results"` sub-dictionary is flattened into four
optional entries, one per stage, present exactly when the source method
inserts the corresponding key (truthiness of the stage result field). -/
structure ResultsSummary where
  status : String
  completed_steps : Nat
  total_steps : Nat
  errors : List String
  tone_summary : Option String
  research_summary : Option String
  content_summary : Option String
  image_summary : Option String
deriving DecidableEq

/-- `get_results_summary` (supervisor.py lines 308-335) in explicit
state-passing form: the returned pair is the produced summary together
with the state the method leaves behind.  The method body only reads the
state and builds a fresh dictionary, so the state component is returned
unchanged — that is the translation of the absence of any write. -/
def get_results_summary (s : WorkflowState) : ResultsSummary × WorkflowState :=
  ({ status := s.status
     completed_steps := s.completed_steps.length
     total_steps := 4
     errors := s.errors
     tone_summary :=
       if s.tone_analysis.isEmpty then none
       else some (get_tone_summary s.tone_analysis)
     research_summary :=
       if s.research_data.isEmpty then none
       else some (get_research_summary s.research_data)
     content_summary :=
       if s.content_result.isEmpty then none
       else some (get_content_summary s.content_result)
     image_summary :=
       if s.image_result.isEmpty then none
       else some (get_image_summary s.image_result) }, s)

/-- Stage oracle in which all four agent calls succeed with small
payload dictionaries. -/
def demoCalls : StageCalls :=
  { tone := .ret [("characteristics", .strDict [("style", "bold")])]
    research := .ret [("insights", .strList ["i1"]), ("topic", .str "ai")]
    content := .ret [("post_content", .str "hello"), ("word_count", .num 1)]
    image := .ret [("dimensions", .str "1024x1024")] }

/-- Stage oracle in which the tone call returns an error dictionary and
the other three calls succeed. -/
def toneFailCalls : StageCalls :=
  { tone := .ret [("error", .str "boom")]
    research := .ret [("insights", .strList ["i1"]), ("topic", .str "ai")]
    content := .ret [("post_content", .str "hello"), ("word_count", .num 1)]
    image := .ret [("dimensions", .str "1024x1024")] }

/-- Stage oracle in which all four agent calls raise exceptions. -/
def raiseCalls : StageCalls :=
  { tone := .raise "boom1"
    research := .raise "boom2"
    content := .raise "boom3"
    image := .raise "boom4" }

/-- Stage oracle in which the tone call succeeds and the research call
fails with an error message that mentions the string `tone_analysis`. -/
def mentionCalls : StageCalls :=
  { tone := .ret [("characteristics", .strDict [("style", "bold")])]
    research := .ret [("error", .str "tone_analysis output invalid")]
    content := .ret [("post_content", .str "hello")]
    image := .ret [("dimensions", .str "1024x1024")] }

/-- Normal form of the `analyze_tone` node: it writes the current step and
the working status, stores the returned dictionary (keeping the old value
on an exception), and appends one outcome to exactly one of the two
lists. -/
theorem analyze_tone_eq (c : StageCall) (s : WorkflowState) :
    analyze_tone c s =
      { s with current_step := "tone_analysis", status := "working",
               tone_analysis := retField c s.tone_analysis,
               completed_steps := s.completed_steps ++
                 (if c.succeeds then ["tone_analysis"] else []),
               errors := s.errors ++ toneErrEntry c } := by
  cases c with
  | ret d =>
    by_cases h : dictHasKey d "error" <;>
      simp [analyze_tone, retField, StageCall.succeeds, toneErrEntry,
        toneErrMsg, h]
  | raise m =>
    simp [analyze_tone, retField, StageCall.succeeds, toneErrEntry, toneErrMsg]

/-- Normal form of the `research_topic` node. -/
theorem research_topic_eq (c : StageCall) (s : WorkflowState) :
    research_topic c s =
      { s with current_step := "research", status := "working",
               research_data := retField c s.research_data,
               completed_steps := s.completed_steps ++
                 (if c.succeeds then ["research"] else []),
               errors := s.errors ++ researchErrEntry c } := by
  cases c with
  | ret d =>
    by_cases h : dictHasKey d "error" <;>
      simp [research_topic, retField, StageCall.succeeds, researchErrEntry,
        researchErrMsg, h]
  | raise m =>
    simp [research_topic, retField, StageCall.succeeds, researchErrEntry,
      researchErrMsg]

/-- Normal form of the `create_content` node. -/
theorem create_content_eq (c : StageCall) (s : WorkflowState) :
    create_content c s =
      { s with current_step := "content_creation", status := "working",
               content_result := retField c s.content_result,
               completed_steps := s.completed_steps ++
                 (if c.succeeds then ["content_creation"] else []),
               errors := s.errors ++ contentErrEntry c } := by
  cases c with
  | ret d =>
    by_cases h : dictHasKey d "error" <;>
      simp [create_content, retField, StageCall.succeeds, contentErrEntry,
        contentErrMsg, h]
  | raise m =>
    simp [create_content, retField, StageCall.succeeds, contentErrEntry,
      contentErrMsg]

/-- Normal form of the `generate_image` node. -/
theorem generate_image_eq (c : StageCall) (s : WorkflowState) :
    generate_image c s =
      { s with current_step := "image_generation", status := "working",
               image_result := retField c s.image_result,
               completed_steps := s.completed_steps ++
                 (if c.succeeds then ["image_generation"] else []),
               errors := s.errors ++ imageErrEntry c } := by
  cases c with
  | ret d =>
    by_cases h : dictHasKey d "error" <;>
      simp [generate_image, retField, StageCall.succeeds, imageErrEntry,
        imageErrMsg, h]
  | raise m =>
    simp [generate_image, retField, StageCall.succeeds, imageErrEntry,
      imageErrMsg]

/-- Master normal form of a valid run: `run_workflow` returns the trimmed
request, the four stage-result fields as left by their calls, the
terminal current step, the completed list and errors list accumulated in
stage order, and the derived final status. -/
theorem run_workflow_valid (calls : StageCalls) (ts tp lang : String)
    (h1 : ¬ (pyStrip ts).length < 10) (h2 : ¬ (pyStrip tp).length < 3) :
    run_workflow calls ts tp lang =
      { tone_sample := pyStrip ts
        topic := pyStrip tp
        language := lang
        tone_analysis := retField calls.tone []
        research_data := retField calls.research []
        content_result := retField calls.content []
        image_result := retField calls.image []
        current_step := "completed"
        completed_steps := stageList calls
        errors := errorList calls
        status := finalStatusOf calls } := by
  unfold run_workflow
  rw [if_neg h1, if_neg h2, analyze_tone_eq, research_topic_eq,
    create_content_eq, generate_image_eq]
  simp [initial_state, finalize_workflow, stageList, errorList, finalStatusOf,
    List.append_assoc]
  split_ifs <;> rfl

/-- Claim C1: for every run that reaches finalization after the
four-stage loop, the derived final status is exactly `"completed"` when
the errors list is empty and all four stage names appear in the
completed-steps list, otherwise `"partially_completed"` when the
completed-steps list is non-empty, otherwise `"failed"`; in particular
the status is `"completed"` iff the errors list is empty and all four
stage names are completed. -/
theorem final_status_derivation (calls : StageCalls) (ts tp lang : String)
    (h1 : ¬ (pyStrip ts).length < 10) (h2 : ¬ (pyStrip tp).length < 3) :
    ((run_workflow calls ts tp lang).status =
      if (run_workflow calls ts tp lang).errors = [] ∧
          (∀ n ∈ stageNames, n ∈ (run_workflow calls ts tp lang).completed_steps)
        then "completed"
        else if (run_workflow calls ts tp lang).completed_steps ≠ []
        then "partially_completed"
        else "failed") ∧
    ((run_workflow calls ts tp lang).status = "completed" ↔
      (run_workflow calls ts tp lang).errors = [] ∧
        ∀ n ∈ stageNames, n ∈ (run_workflow calls ts tp lang).completed_steps) := by
  rw [run_workflow_valid calls ts tp lang h1 h2]
  cases hb1 : calls.tone.succeeds <;> cases hb2 : calls.research.succeeds <;>
    cases hb3 : calls.content.succeeds <;> cases hb4 : calls.image.succeeds <;>
    simp [stageList, errorList, finalStatusOf, stageNames, toneErrEntry,
      researchErrEntry, contentErrEntry, imageErrEntry, hb1, hb2, hb3, hb4]

/-- Claim C2: a request whose stripped tone sample is shorter than 10
characters or whose stripped topic is shorter than 3 characters makes
`run_workflow` return immediately: no stage is attempted (all four
stage-result fields empty, no completed steps), the status is the
failed-equivalent `"error"`, and the errors list holds exactly one
validation message; `run_workflow` is a total function, so no exception
reaches the caller. -/
theorem invalid_request_short_circuit (calls : StageCalls)
    (ts tp lang : String)
    (h : (pyStrip ts).length < 10 ∨ (pyStrip tp).length < 3) :
    (run_workflow calls ts tp lang).status = "error" ∧
    (run_workflow calls ts tp lang).current_step = "error" ∧
    (run_workflow calls ts tp lang).completed_steps = [] ∧
    (run_workflow calls ts tp lang).tone_analysis = [] ∧
    (run_workflow calls ts tp lang).research_data = [] ∧
    (run_workflow calls ts tp lang).content_result = [] ∧
    (run_workflow calls ts tp lang).image_result = [] ∧
    (run_workflow calls ts tp lang).errors.length = 1 ∧
    ∃ m, (run_workflow calls ts tp lang).errors =
      ["Workflow execution failed: " ++ m] := by
  rcases h with h | h
  · simp [run_workflow, h, error_state]
    exact ⟨"Tone sample must be at least 10 characters long", by decide⟩
  · by_cases h1 : (pyStrip ts).length < 10
    · simp [run_workflow, h, h1, error_state]
      exact ⟨"Tone sample must be at least 10 characters long", by decide⟩
    · simp [run_workflow, h, h1, error_state]
      exact ⟨"Topic must be at least 3 characters long", by decide⟩

/-- Claim C3: on every valid request the four stages execute exactly once
in the fixed order tone analysis, research, content creation, image
generation — the completed-steps list is exactly the ordered sublist of
stage names whose calls succeed — and each stage succeeds or fails
independently of the outcomes of the earlier stages: membership of each
stage name in the completed list is equivalent to that stage's own call
succeeding, whatever the other calls do (in particular a tone failure
does not prevent the later stages from running and succeeding). -/
theorem stages_execute_in_order_independently (calls : StageCalls)
    (ts tp lang : String)
    (h1 : ¬ (pyStrip ts).length < 10) (h2 : ¬ (pyStrip tp).length < 3) :
    (run_workflow calls ts tp lang).completed_steps = stageList calls ∧
    ("tone_analysis" ∈ (run_workflow calls ts tp lang).completed_steps ↔
      calls.tone.succeeds = true) ∧
    ("research" ∈ (run_workflow calls ts tp lang).completed_steps ↔
      calls.research.succeeds = true) ∧
    ("content_creation" ∈ (run_workflow calls ts tp lang).completed_steps ↔
      calls.content.succeeds = true) ∧
    ("image_generation" ∈ (run_workflow calls ts tp lang).completed_steps ↔
      calls.image.succeeds = true) := by
  rw [run_workflow_valid calls ts tp lang h1 h2]
  cases hb1 : calls.tone.succeeds <;> cases hb2 : calls.research.succeeds <;>
    cases hb3 : calls.content.succeeds <;> cases hb4 : calls.image.succeeds <;>
    simp [stageList, hb1, hb2, hb3, hb4]

/-- Claim C8: on every valid request the returned state has the terminal
current-step sentinel `"completed"` and one of the terminal status values
`"completed"`, `"partially_completed"`, `"failed"` — never `"starting"`
and never `"working"`. -/
theorem terminal_state_on_valid_run (calls : StageCalls)
    (ts tp lang : String)
    (h1 : ¬ (pyStrip ts).length < 10) (h2 : ¬ (pyStrip tp).length < 3) :
    (run_workflow calls ts tp lang).current_step = "completed" ∧
    ((run_workflow calls ts tp lang).status = "completed" ∨
     (run_workflow calls ts tp lang).status = "partially_completed" ∨
     (run_workflow calls ts tp lang).status = "failed") ∧
    (run_workflow calls ts tp lang).status ≠ "starting" ∧
    (run_workflow calls ts tp lang).status ≠ "working" := by
  rw [run_workflow_valid calls ts tp lang h1 h2]
  refine ⟨rfl, ?_, ?_, ?_⟩ <;>
    simp only [finalStatusOf] <;> split_ifs <;> simp

/-- Claim C4 counterexample: on the invalid request with the 5-character
tone sample `"short"` the returned state has an empty completed-steps
list and yet its status is `"error"`, not `"failed"`, so over all states
returned by `run_workflow` the status is not `"failed"` exactly when the
completed-steps list is empty. -/
theorem failed_iff_no_completed_cex :
    (run_workflow demoCalls "short" "abc" "en").completed_steps = [] ∧
    (run_workflow demoCalls "short" "abc" "en").status ≠ "failed" := by
  decide

/-- Claim C4 amended: restricted to valid requests — the only ones that
reach `finalize_workflow` — the returned status is `"failed"` exactly
when the completed-steps list is empty; an invalid request instead
returns the distinct status `"error"` (with an empty completed-steps
list). -/
theorem failed_iff_no_completed_valid (calls : StageCalls)
    (ts tp lang : String)
    (h1 : ¬ (pyStrip ts).length < 10) (h2 : ¬ (pyStrip tp).length < 3) :
    (run_workflow calls ts tp lang).status = "failed" ↔
      (run_workflow calls ts tp lang).completed_steps = [] := by
  rw [run_workflow_valid calls ts tp lang h1 h2]
  cases hb1 : calls.tone.succeeds <;> cases hb2 : calls.research.succeeds <;>
    cases hb3 : calls.content.succeeds <;> cases hb4 : calls.image.succeeds <;>
    simp [stageList, errorList, finalStatusOf, toneErrEntry, researchErrEntry,
      contentErrEntry, imageErrEntry, hb1, hb2, hb3, hb4]

/-- Claim C10: when a stage call raises an exception instead of returning
a result dictionary, the node's `except` clause absorbs it: the run still
reaches the terminal step with every stage recorded according to its own
outcome, the message `"<Stage name> failed: <exception message>"` is
appended to the errors list, the raising stage's result field keeps its
empty default, and the stage name does not enter the completed-steps
list; `run_workflow` is total, so the exception never escapes to the
caller. -/
theorem exception_absorbed_per_stage (calls : StageCalls)
    (ts tp lang : String)
    (h1 : ¬ (pyStrip ts).length < 10) (h2 : ¬ (pyStrip tp).length < 3) :
    (run_workflow calls ts tp lang).current_step = "completed" ∧
    (run_workflow calls ts tp lang).completed_steps = stageList calls ∧
    (∀ m, calls.tone = .raise m →
      ("Tone analysis failed: " ++ m) ∈ (run_workflow calls ts tp lang).errors ∧
      (run_workflow calls ts tp lang).tone_analysis = [] ∧
      "tone_analysis" ∉ (run_workflow calls ts tp lang).completed_steps) ∧
    (∀ m, calls.research = .raise m →
      ("Research failed: " ++ m) ∈ (run_workflow calls ts tp lang).errors ∧
      (run_workflow calls ts tp lang).research_data = [] ∧
      "research" ∉ (run_workflow calls ts tp lang).completed_steps) ∧
    (∀ m, calls.content = .raise m →
      ("Content creation failed: " ++ m) ∈ (run_workflow calls ts tp lang).errors ∧
      (run_workflow calls ts tp lang).content_result = [] ∧
      "content_creation" ∉ (run_workflow calls ts tp lang).completed_steps) ∧
    (∀ m, calls.image = .raise m →
      ("Image generation failed: " ++ m) ∈ (run_workflow calls ts tp lang).errors ∧
      (run_workflow calls ts tp lang).image_result = [] ∧
      "image_generation" ∉ (run_workflow calls ts tp lang).completed_steps) := by
  rw [run_workflow_valid calls ts tp lang h1 h2]
  refine ⟨rfl, rfl, ?_, ?_, ?_, ?_⟩ <;> intro m hm
  · cases hb2 : calls.research.succeeds <;> cases hb3 : calls.content.succeeds <;>
      cases hb4 : calls.image.succeeds <;>
      simp [stageList, errorList, retField, toneErrEntry, researchErrEntry,
        contentErrEntry, imageErrEntry, toneErrMsg, StageCall.succeeds, hm,
        hb2, hb3, hb4]
  · cases hb1 : calls.tone.succeeds <;> cases hb3 : calls.content.succeeds <;>
      cases hb4 : calls.image.succeeds <;>
      simp [stageList, errorList, retField, toneErrEntry, researchErrEntry,
        contentErrEntry, imageErrEntry, researchErrMsg, StageCall.succeeds, hm,
        hb1, hb3, hb4]
  · cases hb1 : calls.tone.succeeds <;> cases hb2 : calls.research.succeeds <;>
      cases hb4 : calls.image.succeeds <;>
      simp [stageList, errorList, retField, toneErrEntry, researchErrEntry,
        contentErrEntry, imageErrEntry, contentErrMsg, StageCall.succeeds, hm,
        hb1, hb2, hb4]
  · cases hb1 : calls.tone.succeeds <;> cases hb2 : calls.research.succeeds <;>
      cases hb3 : calls.content.succeeds <;>
      simp [stageList, errorList, retField, toneErrEntry, researchErrEntry,
        contentErrEntry, imageErrEntry, imageErrMsg, StageCall.succeeds, hm,
        hb1, hb2, hb3]

/-- The `finalize` node does not touch the completed-steps list. -/
theorem finalize_workflow_completed_steps (s : WorkflowState) :
    (finalize_workflow s).completed_steps = s.completed_steps := by
  simp only [finalize_workflow]
  split_ifs <;> rfl

/-- The `finalize` node does not touch the errors list. -/
theorem finalize_workflow_errors (s : WorkflowState) :
    (finalize_workflow s).errors = s.errors := by
  simp only [finalize_workflow]
  split_ifs <;> rfl

/-- Claim C7: at every point of a run — the initial state, the state
after each of the five graph nodes, and on the invalid-request path the
returned error state — the lengths of the completed-steps list and the
errors list sum to at most 4 and the completed-steps list has no
duplicates; moreover in the returned state of a valid run each of the
four stages contributes exactly one entry to exactly one of the two
lists: its name occurs in the completed list exactly when its call
succeeds, its error message is present exactly otherwise, and the errors
list is precisely the concatenation of the per-stage contributions. -/
theorem run_invariants (calls : StageCalls) (ts tp lang : String) :
    (∀ s ∈ runTrace calls ts tp lang,
      s.completed_steps.length + s.errors.length ≤ 4 ∧
      s.completed_steps.Nodup) ∧
    (¬ (pyStrip ts).length < 10 → ¬ (pyStrip tp).length < 3 →
      ((run_workflow calls ts tp lang).completed_steps.count "tone_analysis" +
        (toneErrEntry calls.tone).length = 1 ∧
      (run_workflow calls ts tp lang).completed_steps.count "research" +
        (researchErrEntry calls.research).length = 1 ∧
      (run_workflow calls ts tp lang).completed_steps.count "content_creation" +
        (contentErrEntry calls.content).length = 1 ∧
      (run_workflow calls ts tp lang).completed_steps.count "image_generation" +
        (imageErrEntry calls.image).length = 1 ∧
      (run_workflow calls ts tp lang).errors =
        toneErrEntry calls.tone ++ researchErrEntry calls.research ++
        contentErrEntry calls.content ++ imageErrEntry calls.image)) := by
  constructor
  · intro s hs
    by_cases hv1 : (pyStrip ts).length < 10
    · simp [runTrace, hv1] at hs
      subst hs
      simp [error_state]
    · by_cases hv2 : (pyStrip tp).length < 3
      · simp [runTrace, hv1, hv2] at hs
        subst hs
        simp [error_state]
      · simp only [runTrace, hv1, hv2, if_false, List.mem_cons,
          List.mem_singleton, List.not_mem_nil, or_false] at hs
        rcases hs with rfl | rfl | rfl | rfl | rfl | rfl
        · simp [initial_state]
        · rw [analyze_tone_eq]
          cases hb1 : calls.tone.succeeds <;>
            simp [initial_state, toneErrEntry, hb1]
        · rw [research_topic_eq, analyze_tone_eq]
          cases hb1 : calls.tone.succeeds <;>
            cases hb2 : calls.research.succeeds <;>
            simp [initial_state, toneErrEntry, researchErrEntry, hb1, hb2]
        · rw [create_content_eq, research_topic_eq, analyze_tone_eq]
          cases hb1 : calls.tone.succeeds <;>
            cases hb2 : calls.research.succeeds <;>
            cases hb3 : calls.content.succeeds <;>
            simp [initial_state, toneErrEntry, researchErrEntry,
              contentErrEntry, hb1, hb2, hb3]
        · rw [generate_image_eq, create_content_eq, research_topic_eq,
            analyze_tone_eq]
          cases hb1 : calls.tone.succeeds <;>
            cases hb2 : calls.research.succeeds <;>
            cases hb3 : calls.content.succeeds <;>
            cases hb4 : calls.image.succeeds <;>
            simp [initial_state, toneErrEntry, researchErrEntry,
              contentErrEntry, imageErrEntry, hb1, hb2, hb3, hb4]
        · rw [finalize_workflow_completed_steps, finalize_workflow_errors] at *
          rw [generate_image_eq, create_content_eq, research_topic_eq,
            analyze_tone_eq]
          cases hb1 : calls.tone.succeeds <;>
            cases hb2 : calls.research.succeeds <;>
            cases hb3 : calls.content.succeeds <;>
            cases hb4 : calls.image.succeeds <;>
            simp [initial_state, toneErrEntry, researchErrEntry,
              contentErrEntry, imageErrEntry, hb1, hb2, hb3, hb4]
  · intro hv1 hv2
    rw [run_workflow_valid calls ts tp lang hv1 hv2]
    refine ⟨?_, ?_, ?_, ?_, rfl⟩ <;>
      cases hb1 : calls.tone.succeeds <;> cases hb2 : calls.research.succeeds <;>
      cases hb3 : calls.content.succeeds <;> cases hb4 : calls.image.succeeds <;>
      simp [stageList, toneErrEntry, researchErrEntry, contentErrEntry,
        imageErrEntry, hb1, hb2, hb3, hb4, List.count_cons, List.count_nil]

/-- Claim C9: the Status Reporter summary is a pure read.  In the
state-passing embedding `get_results_summary` returns the state exactly
as it received it (the method body performs no write), and a second call
on that state produces the identical summary. -/
theorem results_summary_pure (s : WorkflowState) :
    (get_results_summary s).2 = s ∧
    (get_results_summary ((get_results_summary s).2)).1 =
      (get_results_summary s).1 :=
  ⟨rfl, rfl⟩

/-- Assignment preserves the key set of the steps dictionary. -/
theorem hasStep_updateStep (st : List (String × String)) (k v n : String) :
    hasStep (updateStep st k v) n = hasStep st n := by
  induction st with
  | nil => rfl
  | cons p tl ih =>
    by_cases hp : p.1 = k <;>
      simp [updateStep, hasStep, hp] at ih ⊢ <;> rw [ih]

/-- Unfolding of the assignment on a cons cell. -/
theorem updateStep_cons (p : String × String) (tl : List (String × String))
    (k v : String) :
    updateStep (p :: tl) k v =
      (if p.1 == k then (k, v) else p) :: updateStep tl k v := rfl

/-- Unfolding of the dictionary read on a cons cell. -/
theorem lookupStep_cons (q : String × String) (rest : List (String × String))
    (n : String) :
    lookupStep (q :: rest) n =
      if q.1 == n then some q.2 else lookupStep rest n := by
  simp only [lookupStep, List.find?]
  cases hq : q.1 == n <;> simp [hq]

/-- Unfolding of the key-presence test on a cons cell. -/
theorem hasStep_cons (q : String × String) (rest : List (String × String))
    (n : String) :
    hasStep (q :: rest) n = (q.1 == n || hasStep rest n) := rfl

/-- Reading the steps dictionary after an assignment: the assigned key
reads back the assigned value when present, every other key is
untouched. -/
theorem lookupStep_updateStep (st : List (String × String)) (k v n : String) :
    lookupStep (updateStep st k v) n =
      if n = k then (if hasStep st k then some v else none)
      else lookupStep st n := by
  induction st with
  | nil => simp [lookupStep, updateStep, hasStep]
  | cons p tl ih =>
    rw [updateStep_cons, lookupStep_cons, lookupStep_cons, hasStep_cons]
    by_cases hp : p.1 = k <;> by_cases hn : n = k <;>
      by_cases hpn : p.1 = n <;> simp_all

/-- A key of an entry of the dictionary passes the key-presence test. -/
theorem hasStep_of_mem {st : List (String × String)} {p : String × String}
    (h : p ∈ st) : hasStep st p.1 = true :=
  List.any_eq_true.mpr ⟨p, h, by simp⟩

/-- The completed-steps loop body never overwrites a `"completed"`
value with anything else. -/
theorem lookupStep_markCompleted_preserve
    {st : List (String × String)} {n : String} (m : String)
    (h : lookupStep st n = some "completed") :
    lookupStep (markCompleted st m) n = some "completed" := by
  unfold markCompleted
  split_ifs with hm
  · rw [lookupStep_updateStep]
    by_cases hn : n = m <;> simp [hn, hm, h]
  · exact h

/-- Folding the completed-steps loop preserves a `"completed"` value. -/
theorem lookupStep_foldl_markCompleted_preserve
    {st : List (String × String)} {n : String} (l : List String)
    (h : lookupStep st n = some "completed") :
    lookupStep (l.foldl markCompleted st) n = some "completed" := by
  induction l generalizing st with
  | nil => exact h
  | cons a l ih => exact ih (lookupStep_markCompleted_preserve a h)

/-- The completed-steps loop body preserves the key set. -/
theorem hasStep_markCompleted (st : List (String × String)) (m n : String) :
    hasStep (markCompleted st m) n = hasStep st n := by
  unfold markCompleted
  split_ifs <;> simp [hasStep_updateStep]

/-- After the completed-steps loop, every listed stage key reads
`"completed"`. -/
theorem lookupStep_foldl_markCompleted_mem
    {n : String} (l : List String) (st : List (String × String))
    (hmem : n ∈ l) (hk : hasStep st n = true) :
    lookupStep (l.foldl markCompleted st) n = some "completed" := by
  induction l generalizing st with
  | nil => cases hmem
  | cons a l ih =>
    rcases List.mem_cons.mp hmem with rfl | hmem2
    · have hset : lookupStep (markCompleted st n) n = some "completed" := by
        unfold markCompleted
        rw [if_pos hk, lookupStep_updateStep]
        simp [hk]
      exact lookupStep_foldl_markCompleted_preserve l hset
    · exact ih (markCompleted st a) hmem2
        (by rw [hasStep_markCompleted]; exact hk)


/-- The working-step rule never overwrites a `"completed"` value: the
source checks that the current value differs from `"completed"` before
writing `"working"`. -/
theorem lookupStep_markWorking_preserve
    {st : List (String × String)} {n : String} (cur : String)
    (h : lookupStep st n = some "completed") :
    lookupStep (markWorking st cur) n = some "completed" := by
  unfold markWorking
  split_ifs with hc
  · rw [lookupStep_updateStep]
    by_cases hn : n = cur
    · subst hn
      rw [h] at hc
      simp at hc
    · simp [hn, h]
  · exact h

/-- The errors loop leaves a key untouched by a message whose lower-cased
text does not contain that key. -/
theorem lookupStep_markError_of_not_sub
    {n e : String} (st : List (String × String))
    (hsub : substrIn n (pyLower e) = false) :
    lookupStep (markError st e) n = lookupStep st n := by
  unfold markError
  cases hf : st.find? (fun p => substrIn p.1 (pyLower e)) with
  | none => rfl
  | some p =>
    have hp : substrIn p.1 (pyLower e) = true := by
      have h0 := List.find?_some hf
      simpa using h0
    have hne : ¬ n = p.1 := by
      intro hEq
      rw [hEq, hp] at hsub
      cases hsub
    rw [lookupStep_updateStep, if_neg hne]

/-- Folding the errors loop over messages none of which contains the key
leaves that key's value unchanged. -/
theorem lookupStep_foldl_markError_of_not_sub
    {n : String} (es : List String) (st : List (String × String))
    (hsub : ∀ e ∈ es, substrIn n (pyLower e) = false) :
    lookupStep (es.foldl markError st) n = lookupStep st n := by
  induction es generalizing st with
  | nil => rfl
  | cons e es ih =>
    rw [List.foldl_cons,
      ih _ (fun x hx => hsub x (List.mem_cons_of_mem e hx)),
      lookupStep_markError_of_not_sub st (hsub e (List.mem_cons_self e es))]

/-- One errors-loop iteration either leaves a key's value or sets it to
`"error"`. -/
theorem lookupStep_markError_or (st : List (String × String)) (e n : String) :
    lookupStep (markError st e) n = lookupStep st n ∨
    lookupStep (markError st e) n = some "error" := by
  unfold markError
  cases hf : st.find? (fun p => substrIn p.1 (pyLower e)) with
  | none => exact Or.inl rfl
  | some p =>
    by_cases hn : n = p.1
    · subst hn
      right
      rw [lookupStep_updateStep, if_pos rfl,
        if_pos (hasStep_of_mem (List.mem_of_find?_eq_some hf))]
    · left
      rw [lookupStep_updateStep, if_neg hn]

/-- Folding the errors loop keeps a key's value inside
`{"completed", "error"}` once it is there: the loop only ever writes
`"error"`. -/
theorem lookupStep_foldl_markError_or (es : List String)
    (st : List (String × String)) (n : String)
    (h : lookupStep st n = some "completed" ∨
      lookupStep st n = some "error") :
    lookupStep (es.foldl markError st) n = some "completed" ∨
    lookupStep (es.foldl markError st) n = some "error" := by
  induction es generalizing st with
  | nil => exact h
  | cons e es ih =>
    rw [List.foldl_cons]
    apply ih
    rcases lookupStep_markError_or st e n with heq | heq
    · rw [heq]; exact h
    · exact Or.inr heq

/-- Claim C5 failing input: a run in which the tone stage fails and
records `"Tone analysis error: boom"` in the errors list, yet
`get_workflow_status` leaves the `tone_analysis` entry at `"waiting"`
instead of `"error"`: the step key `tone_analysis` (with an underscore)
is never a substring of the lower-cased message
`tone analysis error: ...` (with a space), so the substring match of the
errors loop can never fire for the tone, content-creation and
image-generation stages. -/
theorem tone_error_not_marked_in_step_status :
    (run_workflow toneFailCalls "0123456789" "abc" "en").errors =
      ["Tone analysis error: boom"] ∧
    get_workflow_status (run_workflow toneFailCalls "0123456789" "abc" "en") =
      [("tone_analysis", "waiting"), ("research", "completed"),
       ("content_creation", "completed"), ("image_generation", "completed")] := by
  decide

/-- Claim C6 counterexample: a reachable state in which the tone stage
completed but the research stage failed with a message that mentions
`tone_analysis`; the errors loop of `get_workflow_status` then downgrades
the completed `tone_analysis` entry to `"error"` (the loop scans the step
keys in order and `tone_analysis` matches first). -/
theorem completed_stage_downgraded_cex :
    "tone_analysis" ∈
      (run_workflow mentionCalls "0123456789" "abc" "en").completed_steps ∧
    lookupStep
      (get_workflow_status (run_workflow mentionCalls "0123456789" "abc" "en"))
      "tone_analysis" = some "error" := by
  decide

/-- Claim C6 amended: a stage name in `completed_steps` is mapped by
`get_workflow_status` to `"completed"` or `"error"` — never to
`"working"` or `"waiting"`, whatever `current_step` is — and it is mapped
to `"completed"` whenever no entry of the errors list contains that stage
name as a substring of its lower-cased text; a completed stage can be
downgraded to `"error"` when an error message of some other stage happens
to mention its key. -/
theorem completed_stage_status_amended (s : WorkflowState) (n : String)
    (hn : n ∈ stageNames) (hc : n ∈ s.completed_steps) :
    (lookupStep (get_workflow_status s) n = some "completed" ∨
     lookupStep (get_workflow_status s) n = some "error") ∧
    ((∀ e ∈ s.errors, substrIn n (pyLower e) = false) →
      lookupStep (get_workflow_status s) n = some "completed") := by
  have hk : hasStep initSteps n = true := by
    simp only [stageNames, List.mem_cons, List.not_mem_nil, or_false] at hn
    rcases hn with rfl | rfl | rfl | rfl <;> decide
  have h1 : lookupStep (s.completed_steps.foldl markCompleted initSteps) n =
      some "completed" :=
    lookupStep_foldl_markCompleted_mem s.completed_steps initSteps hc hk
  have h2 : lookupStep (markWorking
      (s.completed_steps.foldl markCompleted initSteps) s.current_step) n =
      some "completed" :=
    lookupStep_markWorking_preserve s.current_step h1
  unfold get_workflow_status
  exact ⟨lookupStep_foldl_markError_or s.errors _ n (Or.inl h2),
    fun he => (lookupStep_foldl_markError_of_not_sub s.errors _ he).trans h2⟩

/-- Witness for the C1 theorem at a concrete valid request on which all
four stages succeed. -/
theorem final_status_derivation_witness :
    ((run_workflow demoCalls "0123456789" "abc" "en").status =
      if (run_workflow demoCalls "0123456789" "abc" "en").errors = [] ∧
          (∀ n ∈ stageNames,
            n ∈ (run_workflow demoCalls "0123456789" "abc" "en").completed_steps)
        then "completed"
        else if (run_workflow demoCalls "0123456789" "abc" "en").completed_steps ≠ []
        then "partially_completed"
        else "failed") ∧
    ((run_workflow demoCalls "0123456789" "abc" "en").status = "completed" ↔
      (run_workflow demoCalls "0123456789" "abc" "en").errors = [] ∧
        ∀ n ∈ stageNames,
          n ∈ (run_workflow demoCalls "0123456789" "abc" "en").completed_steps) :=
  final_status_derivation demoCalls "0123456789" "abc" "en"
    (by decide) (by decide)

/-- Witness for the C2 theorem at the 5-character tone sample `"12345"`. -/
theorem invalid_request_short_circuit_witness :
    (run_workflow demoCalls "12345" "abc" "en").status = "error" ∧
    (run_workflow demoCalls "12345" "abc" "en").current_step = "error" ∧
    (run_workflow demoCalls "12345" "abc" "en").completed_steps = [] ∧
    (run_workflow demoCalls "12345" "abc" "en").tone_analysis = [] ∧
    (run_workflow demoCalls "12345" "abc" "en").research_data = [] ∧
    (run_workflow demoCalls "12345" "abc" "en").content_result = [] ∧
    (run_workflow demoCalls "12345" "abc" "en").image_result = [] ∧
    (run_workflow demoCalls "12345" "abc" "en").errors.length = 1 ∧
    ∃ m, (run_workflow demoCalls "12345" "abc" "en").errors =
      ["Workflow execution failed: " ++ m] :=
  invalid_request_short_circuit demoCalls "12345" "abc" "en"
    (Or.inl (by decide))

/-- Witness for the C3 theorem at a run whose tone stage fails while the
later three stages still run and succeed. -/
theorem stages_execute_in_order_independently_witness :
    (run_workflow toneFailCalls "0123456789" "abc" "en").completed_steps =
      stageList toneFailCalls ∧
    ("tone_analysis" ∈
        (run_workflow toneFailCalls "0123456789" "abc" "en").completed_steps ↔
      toneFailCalls.tone.succeeds = true) ∧
    ("research" ∈
        (run_workflow toneFailCalls "0123456789" "abc" "en").completed_steps ↔
      toneFailCalls.research.succeeds = true) ∧
    ("content_creation" ∈
        (run_workflow toneFailCalls "0123456789" "abc" "en").completed_steps ↔
      toneFailCalls.content.succeeds = true) ∧
    ("image_generation" ∈
        (run_workflow toneFailCalls "0123456789" "abc" "en").completed_steps ↔
      toneFailCalls.image.succeeds = true) :=
  stages_execute_in_order_independently toneFailCalls "0123456789" "abc" "en"
    (by decide) (by decide)

/-- Witness for the amended C4 theorem at a valid run in which every
stage raises, so that zero stages succeed and the status is `"failed"`. -/
theorem failed_iff_no_completed_valid_witness :
    (run_workflow raiseCalls "0123456789" "abc" "en").status = "failed" ↔
      (run_workflow raiseCalls "0123456789" "abc" "en").completed_steps = [] :=
  failed_iff_no_completed_valid raiseCalls "0123456789" "abc" "en"
    (by decide) (by decide)

/-- Witness for the amended C6 theorem: in the all-success demo run the
completed tone stage reads back `"completed"` (its errors list is empty,
so the no-mention side condition holds). -/
theorem completed_stage_status_amended_witness :
    lookupStep
      (get_workflow_status (run_workflow demoCalls "0123456789" "abc" "en"))
      "tone_analysis" = some "completed" :=
  (completed_stage_status_amended
      (run_workflow demoCalls "0123456789" "abc" "en") "tone_analysis"
      (by decide) (by decide)).2 (by decide)

/-- Witness for the C7 theorem: the invariants hold at the returned state
of the all-raise run, and each stage contributes exactly one entry. -/
theorem run_invariants_witness :
    ((run_workflow raiseCalls "0123456789" "abc" "en").completed_steps.length +
        (run_workflow raiseCalls "0123456789" "abc" "en").errors.length ≤ 4 ∧
      (run_workflow raiseCalls "0123456789" "abc" "en").completed_steps.Nodup) ∧
    ((run_workflow raiseCalls "0123456789" "abc" "en").completed_steps.count
        "tone_analysis" + (toneErrEntry raiseCalls.tone).length = 1 ∧
      (run_workflow raiseCalls "0123456789" "abc" "en").completed_steps.count
        "research" + (researchErrEntry raiseCalls.research).length = 1 ∧
      (run_workflow raiseCalls "0123456789" "abc" "en").completed_steps.count
        "content_creation" + (contentErrEntry raiseCalls.content).length = 1 ∧
      (run_workflow raiseCalls "0123456789" "abc" "en").completed_steps.count
        "image_generation" + (imageErrEntry raiseCalls.image).length = 1 ∧
      (run_workflow raiseCalls "0123456789" "abc" "en").errors =
        toneErrEntry raiseCalls.tone ++ researchErrEntry raiseCalls.research ++
        contentErrEntry raiseCalls.content ++ imageErrEntry raiseCalls.image) :=
  ⟨(run_invariants raiseCalls "0123456789" "abc" "en").1
      (run_workflow raiseCalls "0123456789" "abc" "en") (by decide),
    (run_invariants raiseCalls "0123456789" "abc" "en").2
      (by decide) (by decide)⟩

/-- Witness for the C8 theorem at the all-success demo run. -/
theorem terminal_state_on_valid_run_witness :
    (run_workflow demoCalls "0123456789" "abc" "en").current_step =
      "completed" ∧
    ((run_workflow demoCalls "0123456789" "abc" "en").status = "completed" ∨
     (run_workflow demoCalls "0123456789" "abc" "en").status =
       "partially_completed" ∨
     (run_workflow demoCalls "0123456789" "abc" "en").status = "failed") ∧
    (run_workflow demoCalls "0123456789" "abc" "en").status ≠ "starting" ∧
    (run_workflow demoCalls "0123456789" "abc" "en").status ≠ "working" :=
  terminal_state_on_valid_run demoCalls "0123456789" "abc" "en"
    (by decide) (by decide)

/-- Witness for the C10 theorem at the all-raise run: the tone exception
message is recorded, the tone result field keeps its default, the tone
stage is not marked completed, and the last stage's exception message is
recorded as well, showing the run reached the final stage. -/
theorem exception_absorbed_per_stage_witness :
    ("Tone analysis failed: boom1") ∈
      (run_workflow raiseCalls "0123456789" "abc" "en").errors ∧
    (run_workflow raiseCalls "0123456789" "abc" "en").tone_analysis = [] ∧
    "tone_analysis" ∉
      (run_workflow raiseCalls "0123456789" "abc" "en").completed_steps ∧
    ("Image generation failed: boom4") ∈
      (run_workflow raiseCalls "0123456789" "abc" "en").errors :=
  ⟨((exception_absorbed_per_stage raiseCalls "0123456789" "abc" "en"
      (by decide) (by decide)).2.2.1 "boom1" rfl).1,
    ((exception_absorbed_per_stage raiseCalls "0123456789" "abc" "en"
      (by decide) (by decide)).2.2.1 "boom1" rfl).2.1,
    ((exception_absorbed_per_stage raiseCalls "0123456789" "abc" "en"
      (by decide) (by decide)).2.2.1 "boom1" rfl).2.2,
    ((exception_absorbed_per_stage raiseCalls "0123456789" "abc" "en"
      (by decide) (by decide)).2.2.2.2.2 "boom4" rfl).1⟩

end Supervisor
